import Mathlib

/-!
Verification of the secret/credential parsing subsystem of the `go-types`
repository (`CredentialSecret`, `UsernamePasswordSecret`, `GenericSecret`).

Go strings are modelled as lists of characters (`Str`).  External
collaborators that the spec itself declares out of scope (filesystem reads,
environment-variable lookup, the AWS secret-store client, the standard
library's base64 codec and JSON codec for opaque byte strings) are passed in
as an explicit effects record, so the dispatch-and-decode logic of the
resolver — the part that lives in this repository — is embedded exactly.
-/

/-- Go strings / byte slices, modelled as lists of characters. -/
abbrev Str := List Char

/-- Shorthand turning a Lean string literal into the `Str` model. -/
def str (s : String) : Str := s.data

/-- `strings.SplitN(s, ":", 2)`: `none` when `s` has no colon (Go returns a
one-element slice, which the callers treat as a format error), otherwise the
parts before and after the first colon. -/
def splitFirstColon : Str → Option (Str × Str)
  | [] => none
  | c :: cs =>
    if c = ':' then some ([], cs)
    else
      match splitFirstColon cs with
      | none => none
      | some (a, b) => some (c :: a, b)

/-- Strip a literal from the front of a string: `dropLit lit s` is the
remainder of `s` after `lit` when `lit` is an initial segment of `s`. -/
def dropLit : Str → Str → Option Str
  | [], s => some s
  | _ :: _, [] => none
  | l :: ls, c :: cs => if l = c then dropLit ls cs else none

/-- The literal `://` separating scheme and payload. -/
def sep : Str := str "://"

/-- The anchored regular expression `^(s1|...|sk)://(.+)$` (or `(.*)$` when
`allowEmpty` is true) used by the resolvers, specialised to the fact that the
alternatives are plain literals: the scheme must be an exact, case-sensitive
initial segment of the input followed by `://`, and the payload (the rest of
the input) may not contain a newline, since `.` does not match `\n` and `$`
anchors at end of text.  At most one scheme of either allow-list can match a
given input, so the result does not depend on the order of the list. -/
def schemeSplit : List Str → Bool → Str → Option (Str × Str)
  | [], _, _ => none
  | s :: rest, allowEmpty, secret =>
    match dropLit (s ++ sep) secret with
    | none => schemeSplit rest allowEmpty secret
    | some payload =>
      if (allowEmpty || !payload.isEmpty) && payload.all (fun c => !(c == '\n'))
      then some (s, payload)
      else schemeSplit rest allowEmpty secret

/-- Error codes used by the secret resolvers (constants 10, 11, 12 of the
repository's error-code block). -/
inductive XErrorCode where
  | UnsupportedSecretProtocolError
  | ParseSecretError
  | SecretProviderError
deriving DecidableEq, Repr

/-- An `xerrors.Error`: a code plus the diagnostic attributes attached with
`WithAttr`.  (Message strings are not modelled; no claim is about them.) -/
structure XError where
  code : XErrorCode
  attrs : List (Str × Str)
deriving DecidableEq, Repr

/-- `xerrors.New`/`xerrors.Newf`: an error with the given code and no
attributes. -/
def xnew (code : XErrorCode) : XError := ⟨code, []⟩

/-- `Error.WithAttr`: attach a diagnostic attribute. -/
def XError.withAttr (e : XError) (k v : Str) : XError :=
  ⟨e.code, e.attrs ++ [(k, v)]⟩

/-- The `UsernamePasswordSecret` struct (fields in source order). -/
structure UsernamePasswordSecret where
  password : Str
  username : Str
deriving DecidableEq, Repr

/-- The `GenericSecret` struct. -/
structure GenericSecret where
  data : Str
deriving DecidableEq, Repr

/-- The value returned by the AWS secret-store client: an optional string
secret and an optional binary secret. -/
structure AwsSecretValue where
  secretString : Option Str
  secretBinary : Option Str
deriving DecidableEq, Repr

/-- The external collaborators of the resolvers, injected as functions.  The
spec places all of them out of scope ("treated as external collaborators"):
`getenv` returns `none` when the variable is unset (`os.Getenv` then yields
the empty string), `readFile` returns `none` on an I/O error,
`awsLoadConfig`/`awsGetSecret` model the secret-store client, `b64decode`
models `base64.StdEncoding.DecodeString` (`none` on invalid input), and
`jsonCreds` models `json.Unmarshal` of raw bytes into a
`UsernamePasswordSecret` (`none` on a parse error). -/
structure SecretEffects where
  getenv : Str → Option Str
  readFile : Str → Option Str
  b64decode : Str → Option Str
  awsLoadConfig : Bool
  awsGetSecret : Str → Option AwsSecretValue
  jsonCreds : Str → Option UsernamePasswordSecret

/-- The allow-list of the credential resolver's regular expression
`^(awssecret|base64|env|env\+base64|file|file\+base64|raw)://(.+)$`. -/
def upSchemes : List Str :=
  [str "awssecret", str "base64", str "env", str "env+base64",
   str "file", str "file+base64", str "raw"]

/-- `ParseUsernamePasswordSecret`: translation of the Go function, with the
external collaborators supplied by `eff`. -/
def parseUsernamePasswordSecret (eff : SecretEffects) (secret : Str) :
    Except XError UsernamePasswordSecret :=
  if secret = [] then .ok ⟨[], []⟩ else
  match schemeSplit upSchemes false secret with
  | none => .error (xnew .UnsupportedSecretProtocolError)
  | some (scheme, payload) =>
    if scheme = str "awssecret" then
      if !eff.awsLoadConfig then
        .error ((xnew .SecretProviderError).withAttr (str "secret_name") payload)
      else
        match eff.awsGetSecret payload with
        | none =>
          .error ((xnew .SecretProviderError).withAttr (str "secret_name") payload)
        | some result =>
          match result.secretString with
          | none =>
            .error ((xnew .ParseSecretError).withAttr (str "secret_name") payload)
          | some s =>
            match eff.jsonCreds s with
            | none =>
              .error ((xnew .ParseSecretError).withAttr (str "secret_name") payload)
            | some creds => .ok creds
    else if scheme = str "base64" then
      match eff.b64decode payload with
      | none => .error (xnew .ParseSecretError)
      | some secretData =>
        match splitFirstColon secretData with
        | none => .error (xnew .ParseSecretError)
        | some (u, p) => .ok ⟨p, u⟩
    else if scheme = str "env" then
      match splitFirstColon payload with
      | none => .error ((xnew .ParseSecretError).withAttr (str "credentials") payload)
      | some (uvar, pvar) =>
        .ok ⟨(eff.getenv pvar).getD [], (eff.getenv uvar).getD []⟩
    else if scheme = str "env+base64" then
      match splitFirstColon payload with
      | none => .error ((xnew .ParseSecretError).withAttr (str "credentials") payload)
      | some (uvar, pvar) =>
        match eff.b64decode ((eff.getenv uvar).getD []) with
        | none => .error ((xnew .ParseSecretError).withAttr (str "credentials") payload)
        | some u =>
          match eff.b64decode ((eff.getenv pvar).getD []) with
          | none =>
            .error ((xnew .ParseSecretError).withAttr (str "credentials") payload)
          | some p => .ok ⟨p, u⟩
    else if scheme = str "file" then
      match eff.readFile payload with
      | none => .error ((xnew .ParseSecretError).withAttr (str "filename") payload)
      | some contents =>
        match eff.jsonCreds contents with
        | none => .error ((xnew .ParseSecretError).withAttr (str "filename") payload)
        | some creds => .ok creds
    else if scheme = str "file+base64" then
      match eff.readFile payload with
      | none => .error ((xnew .ParseSecretError).withAttr (str "filename") payload)
      | some contents =>
        match eff.jsonCreds contents with
        | none => .error ((xnew .ParseSecretError).withAttr (str "filename") payload)
        | some encodedCreds =>
          match eff.b64decode encodedCreds.username with
          | none => .error ((xnew .ParseSecretError).withAttr (str "filename") payload)
          | some u =>
            match eff.b64decode encodedCreds.password with
            | none =>
              .error ((xnew .ParseSecretError).withAttr (str "filename") payload)
            | some p => .ok ⟨p, u⟩
    else if scheme = str "raw" then
      match splitFirstColon payload with
      | none => .error (xnew .ParseSecretError)
      | some (u, p) => .ok ⟨p, u⟩
    else .ok ⟨[], []⟩

deriving instance DecidableEq for Except

/-- The allow-list of the generic resolver's regular expression
`^(awssecret|awssecret\+binary|base64|env|env\+base64|file|file\+base64|raw)://(.*)$`. -/
def genSchemes : List Str :=
  [str "awssecret", str "awssecret+binary", str "base64", str "env",
   str "env+base64", str "file", str "file+base64", str "raw"]

/-- `ParseGenericSecret`: translation of the Go function, with the external
collaborators supplied by `eff`. -/
def parseGenericSecret (eff : SecretEffects) (secret : Str) :
    Except XError GenericSecret :=
  if secret = [] then .ok ⟨[]⟩ else
  match schemeSplit genSchemes true secret with
  | none => .error (xnew .UnsupportedSecretProtocolError)
  | some (scheme, payload) =>
    if scheme = str "awssecret" then
      if !eff.awsLoadConfig then
        .error ((xnew .SecretProviderError).withAttr (str "secret_name") payload)
      else
        match eff.awsGetSecret payload with
        | none =>
          .error ((xnew .SecretProviderError).withAttr (str "secret_name") payload)
        | some result =>
          match result.secretString with
          | none =>
            .error ((xnew .ParseSecretError).withAttr (str "secret_name") payload)
          | some s => .ok ⟨s⟩
    else if scheme = str "awssecret+binary" then
      if !eff.awsLoadConfig then
        .error ((xnew .SecretProviderError).withAttr (str "secret_name") payload)
      else
        match eff.awsGetSecret payload with
        | none =>
          .error ((xnew .SecretProviderError).withAttr (str "secret_name") payload)
        | some result =>
          match result.secretBinary with
          | none =>
            .error ((xnew .ParseSecretError).withAttr (str "secret_name") payload)
          | some b => .ok ⟨b⟩
    else if scheme = str "base64" then
      match eff.b64decode payload with
      | none => .error (xnew .ParseSecretError)
      | some d => .ok ⟨d⟩
    else if scheme = str "env" then
      .ok ⟨(eff.getenv payload).getD []⟩
    else if scheme = str "env+base64" then
      match eff.b64decode ((eff.getenv payload).getD []) with
      | none => .error ((xnew .ParseSecretError).withAttr (str "secret_var") payload)
      | some d => .ok ⟨d⟩
    else if scheme = str "file" then
      match eff.readFile payload with
      | none => .error ((xnew .ParseSecretError).withAttr (str "filename") payload)
      | some contents => .ok ⟨contents⟩
    else if scheme = str "file+base64" then
      match eff.readFile payload with
      | none => .error ((xnew .ParseSecretError).withAttr (str "filename") payload)
      | some contents =>
        match eff.b64decode contents with
        | none => .error ((xnew .ParseSecretError).withAttr (str "filename") payload)
        | some d => .ok ⟨d⟩
    else if scheme = str "raw" then
      .ok ⟨payload⟩
    else .ok ⟨[]⟩

/-- `UsernamePasswordSecret.String`: the masked plain-text rendering — first
character of the username (when non-empty) followed by eleven asterisks, a
colon, and a twelve-asterisk password mask. -/
def UsernamePasswordSecret.string (s : UsernamePasswordSecret) : Str :=
  match s.username with
  | [] => str ":************"
  | c :: _ => c :: str "***********:************"

/-- `UsernamePasswordSecret.MarshalText` returns the bytes of `String`. -/
def UsernamePasswordSecret.marshalText (s : UsernamePasswordSecret) : Str :=
  s.string

/-- A JSON document, used to model inputs and outputs of
`encoding/json`. -/
inductive Jval where
  | jnull
  | jbool (b : Bool)
  | jnum (n : Int)
  | jstr (s : Str)
  | jarr (xs : List Jval)
  | jobj (fields : List (Str × Jval))

/-- `UsernamePasswordSecret.MarshalJSON`: the struct is copied, the username
is replaced by its first character plus eleven asterisks when non-empty, the
password by twelve asterisks, and the result is marshalled (fields in struct
order: `password`, then `username`). -/
def UsernamePasswordSecret.marshalJSON (s : UsernamePasswordSecret) : Jval :=
  .jobj [(str "password", .jstr (str "************")),
         (str "username",
          .jstr (match s.username with
                 | [] => []
                 | c :: _ => c :: str "***********"))]

/-- `GenericSecret.String`: a fixed sixteen-asterisk mask. -/
def GenericSecret.string (_ : GenericSecret) : Str := str "****************"

/-- `GenericSecret.MarshalText` returns the bytes of `String`. -/
def GenericSecret.marshalText (s : GenericSecret) : Str := s.string

/-- `GenericSecret.MarshalJSON` marshals the fixed mask string. -/
def GenericSecret.marshalJSON (_ : GenericSecret) : Jval :=
  .jstr (str "****************")

/-- `strings.ToLower`, character by character (ASCII suffices here). -/
def toLowerStr (s : Str) : Str := s.map Char.toLower

/-- `json.Unmarshal` of a JSON document into a zero-valued
`UsernamePasswordSecret` struct: an object assigns the `username` and
`password` keys (matched case-insensitively, later duplicates winning, other
keys ignored, a field of the wrong type failing), `null` leaves the zero
value, and any other document is a type error (`none`). -/
def jvalToUPSStruct : Jval → Option UsernamePasswordSecret :=
  fun v =>
    match v with
    | .jnull => some ⟨[], []⟩
    | .jobj fields => go fields ⟨[], []⟩
    | _ => none
where
  go : List (Str × Jval) → UsernamePasswordSecret →
      Option UsernamePasswordSecret
    | [], acc => some acc
    | (k, v) :: rest, acc =>
      if toLowerStr k = str "username" then
        match v with
        | .jstr s => go rest ⟨acc.password, s⟩
        | .jnull => go rest acc
        | _ => none
      else if toLowerStr k = str "password" then
        match v with
        | .jstr s => go rest ⟨s, acc.username⟩
        | .jnull => go rest acc
        | _ => none
      else go rest acc

/-- `json.Unmarshal` of a JSON document into a zero-valued `GenericSecret`
struct: the `data` field is a `[]byte`, so its JSON form is a base64-encoded
string, decoded with the injected codec. -/
def jvalToGenStruct (eff : SecretEffects) : Jval → Option GenericSecret :=
  fun v =>
    match v with
    | .jnull => some ⟨[]⟩
    | .jobj fields => go fields ⟨[]⟩
    | _ => none
where
  go : List (Str × Jval) → GenericSecret → Option GenericSecret
    | [], acc => some acc
    | (k, v) :: rest, acc =>
      if toLowerStr k = str "data" then
        match v with
        | .jstr s =>
          match eff.b64decode s with
          | none => none
          | some d => go rest ⟨d⟩
        | .jnull => go rest acc
        | _ => none
      else go rest acc

/-- `json.Unmarshal` of a JSON document into a zero-valued string variable:
only a JSON string (or `null`, leaving the empty string) succeeds. -/
def jvalToGoString : Jval → Option Str
  | .jstr s => some s
  | .jnull => some []
  | _ => none

/-- Errors of the unmarshalling entry points: either an `encoding/json` type
error or an error surfaced from the parse function. -/
inductive UnmarshalError where
  | jsonError
  | secretError (e : XError)
deriving DecidableEq, Repr

/-- `UsernamePasswordSecret.UnmarshalJSON` on a (well-formed) JSON document:
first try to unmarshal into the struct alias; on failure unmarshal a string
and parse it with `ParseUsernamePasswordSecret`. -/
def UsernamePasswordSecret.unmarshalJSON (eff : SecretEffects) (v : Jval) :
    Except UnmarshalError UsernamePasswordSecret :=
  match jvalToUPSStruct v with
  | some s => .ok s
  | none =>
    match jvalToGoString v with
    | none => .error .jsonError
    | some val =>
      match parseUsernamePasswordSecret eff val with
      | .ok s => .ok s
      | .error e => .error (.secretError e)

/-- `UsernamePasswordSecret.UnmarshalText` delegates to
`ParseUsernamePasswordSecret`. -/
def UsernamePasswordSecret.unmarshalText (eff : SecretEffects) (data : Str) :
    Except XError UsernamePasswordSecret :=
  parseUsernamePasswordSecret eff data

/-- `GenericSecret.UnmarshalJSON` on a (well-formed) JSON document. -/
def GenericSecret.unmarshalJSON (eff : SecretEffects) (v : Jval) :
    Except UnmarshalError GenericSecret :=
  match jvalToGenStruct eff v with
  | some s => .ok s
  | none =>
    match jvalToGoString v with
    | none => .error .jsonError
    | some val =>
      match parseGenericSecret eff val with
      | .ok s => .ok s
      | .error e => .error (.secretError e)

/-- `GenericSecret.UnmarshalText` delegates to `ParseGenericSecret`. -/
def GenericSecret.unmarshalText (eff : SecretEffects) (data : Str) :
    Except XError GenericSecret :=
  parseGenericSecret eff data

/-- Walk a reversed path: stop empty at a `/`, return the extension at the
first `.`, otherwise keep collecting the suffix. -/
def pathExtRev : List Char → List Char → List Char
  | _, [] => []
  | acc, c :: rest =>
    if c = '/' then []
    else if c = '.' then '.' :: acc
    else pathExtRev (c :: acc) rest

/-- `path.Ext`: the suffix beginning at the final dot in the final
slash-separated element of the path, including the dot; empty when there is
no dot. -/
def pathExt (p : Str) : Str := pathExtRev [] p.reverse

/-- `unicode.IsSpace` restricted to the Latin-1 range, which covers every
byte Go's `strings.TrimSpace` can trim in the inputs modelled here. -/
def goIsSpace (c : Char) : Bool :=
  c = ' ' || c = '\t' || c = '\n' || c.val = 11 || c.val = 12 || c = '\r' ||
    c.val = 0x85 || c.val = 0xA0

/-- `strings.TrimSpace`: drop whitespace from both ends. -/
def trimSpace (s : Str) : Str :=
  ((s.dropWhile goIsSpace).reverse.dropWhile goIsSpace).reverse

/-- The `CredentialSecret` struct of the older parser (fields in source
order). -/
structure CredentialSecret where
  password : Str
  username : Str
deriving DecidableEq, Repr

/-- The distinct error sites of `ParseCredentialSecret` (the function returns
plain `errors.New`/`fmt.Errorf` values; only their identity matters). -/
inductive CredError where
  | notSupportedFormat
  | base64DecodeFailed
  | base64Format
  | plaintextFormat
  | fileReadFailed
  | fileJsonFailed
  | fileYamlFailed
  | fileFormat
deriving DecidableEq, Repr

/-- External collaborators of `ParseCredentialSecret`: filesystem reads, the
base64 codec, and `json.Unmarshal`/`yaml.Unmarshal` of raw file bytes into a
`CredentialSecret` (`none` on a parse error). -/
structure CredEffects where
  readFile : Str → Option Str
  b64decode : Str → Option Str
  jsonCred : Str → Option CredentialSecret
  yamlCred : Str → Option CredentialSecret

/-- The allow-list of the older parser's regular expression
`^(base64|plaintext|file)://(.*)$`. -/
def credSchemes : List Str := [str "base64", str "plaintext", str "file"]

/-- `ParseCredentialSecret`: translation of the Go function — including its
extension dispatch, which compares `strings.ToLower(path.Ext(path))` (a value
that keeps its leading dot) against the bare words `json`, `yaml` and
`yml`. -/
def parseCredentialSecret (eff : CredEffects) (secret : Str) :
    Except CredError CredentialSecret :=
  if secret = [] then .ok ⟨[], []⟩ else
  match schemeSplit credSchemes true secret with
  | none => .error .notSupportedFormat
  | some (scheme, payload) =>
    if scheme = str "base64" then
      match eff.b64decode payload with
      | none => .error .base64DecodeFailed
      | some secretData =>
        match splitFirstColon secretData with
        | none => .error .base64Format
        | some (u, p) => .ok ⟨p, u⟩
    else if scheme = str "plaintext" then
      match splitFirstColon payload with
      | none => .error .plaintextFormat
      | some (u, p) => .ok ⟨p, u⟩
    else if scheme = str "file" then
      match eff.readFile payload with
      | none => .error .fileReadFailed
      | some contents =>
        let ext := toLowerStr (pathExt payload)
        if ext = str "json" then
          match eff.jsonCred contents with
          | none => .error .fileJsonFailed
          | some s => .ok s
        else if ext = str "yaml" ∨ ext = str "yml" then
          match eff.yamlCred contents with
          | none => .error .fileYamlFailed
          | some s => .ok s
        else
          match splitFirstColon (trimSpace contents) with
          | none => .error .fileFormat
          | some (u, p) => .ok ⟨p, u⟩
    else .ok ⟨[], []⟩

/-- The value of a standard base64 alphabet character. -/
def b64val (c : Char) : Option Nat :=
  if 'A' ≤ c ∧ c ≤ 'Z' then some (c.toNat - 'A'.toNat)
  else if 'a' ≤ c ∧ c ≤ 'z' then some (c.toNat - 'a'.toNat + 26)
  else if '0' ≤ c ∧ c ≤ '9' then some (c.toNat - '0'.toNat + 52)
  else if c = '+' then some 62
  else if c = '/' then some 63
  else none

/-- A concrete model of `base64.StdEncoding.DecodeString` (padded groups of
four alphabet characters; anything else rejected), used to instantiate the
injected codec in witnesses.  The theorems about the resolvers quantify over
the codec, so none of them depends on this model. -/
def goB64Decode : Str → Option Str
  | [] => some []
  | a :: b :: c :: d :: rest =>
    match b64val a, b64val b with
    | some va, some vb =>
      if c = '=' then
        if d = '=' ∧ rest = [] then
          some [Char.ofNat ((va <<< 2 ||| vb >>> 4) % 256)]
        else none
      else
        match b64val c with
        | none => none
        | some vc =>
          if d = '=' then
            if rest = [] then
              some [Char.ofNat ((va <<< 2 ||| vb >>> 4) % 256),
                    Char.ofNat (((vb <<< 4 ||| vc >>> 2)) % 256)]
            else none
          else
            match b64val d with
            | none => none
            | some vd =>
              match goB64Decode rest with
              | none => none
              | some tail =>
                some ([Char.ofNat ((va <<< 2 ||| vb >>> 4) % 256),
                       Char.ofNat ((vb <<< 4 ||| vc >>> 2) % 256),
                       Char.ofNat ((vc <<< 6 ||| vd) % 256)] ++ tail)
    | _, _ => none
  | _ => none

/-- A concrete effects record for witnesses: no environment variables set, no
readable files, no AWS secret store, the concrete base64 codec, and a JSON
credentials codec that recognises no document. -/
def eff₀ : SecretEffects :=
  ⟨fun _ => none, fun _ => none, goB64Decode, false, fun _ => none,
   fun _ => none⟩

/-! ### Helper lemmas about the string model -/

lemma dropLit_self (l s : Str) : dropLit l (l ++ s) = some s := by
  induction l with
  | nil => rfl
  | cons c cs ih => simp [dropLit, ih]

lemma splitFirstColon_none_of (s : Str) (h : ':' ∉ s) :
    splitFirstColon s = none := by
  induction s with
  | nil => rfl
  | cons c cs ih =>
    have hc : c ≠ ':' := fun hcontra => h (by simp [hcontra])
    simp [splitFirstColon, hc, ih (fun hmem => h (by simp [hmem]))]

lemma splitFirstColon_app (u v : Str) (h : ':' ∉ u) :
    splitFirstColon (u ++ ':' :: v) = some (u, v) := by
  induction u with
  | nil => simp [splitFirstColon]
  | cons c cs ih =>
    have hc : c ≠ ':' := fun hcontra => h (by simp [hcontra])
    simp [splitFirstColon, hc,
      ih (fun hmem => h (by simp [hmem]))]

lemma all_ne_lf (s : Str) (h : '\n' ∉ s) :
    s.all (fun c => !(c == '\n')) = true := by
  simp only [List.all_eq_true]
  intro c hc
  simp only [Bool.not_eq_eq_eq_not, Bool.not_true, beq_eq_false_iff_ne]
  exact fun hcontra => h (hcontra ▸ hc)

lemma schemeSplit_none (schemes : List Str) (b : Bool) (secret : Str)
    (h : ∀ s ∈ schemes, dropLit (s ++ sep) secret = none) :
    schemeSplit schemes b secret = none := by
  induction schemes with
  | nil => rfl
  | cons s rest ih =>
    simp [schemeSplit, h s (by simp),
      ih (fun t ht => h t (by simp [ht]))]

/-! Mismatch facts: no allow-listed scheme other than the intended one can
match an input of the given shape (the alternatives of each regular
expression are mutually exclusive as prefixes). -/

lemma dropLit_aws_env (p : Str) :
    dropLit (str "awssecret" ++ sep) (str "env://" ++ p) = none := rfl

lemma dropLit_b64_env (p : Str) :
    dropLit (str "base64" ++ sep) (str "env://" ++ p) = none := rfl

lemma dropLit_aws_b64 (p : Str) :
    dropLit (str "awssecret" ++ sep) (str "base64://" ++ p) = none := rfl

lemma dropLit_awsbin_b64 (p : Str) :
    dropLit (str "awssecret+binary" ++ sep) (str "base64://" ++ p) = none := rfl

lemma dropLit_aws_raw (p : Str) :
    dropLit (str "awssecret" ++ sep) (str "raw://" ++ p) = none := rfl

lemma dropLit_b64_raw (p : Str) :
    dropLit (str "base64" ++ sep) (str "raw://" ++ p) = none := rfl

lemma dropLit_env_raw (p : Str) :
    dropLit (str "env" ++ sep) (str "raw://" ++ p) = none := rfl

lemma dropLit_envb64_raw (p : Str) :
    dropLit (str "env+base64" ++ sep) (str "raw://" ++ p) = none := rfl

lemma dropLit_file_raw (p : Str) :
    dropLit (str "file" ++ sep) (str "raw://" ++ p) = none := rfl

lemma dropLit_fileb64_raw (p : Str) :
    dropLit (str "file+base64" ++ sep) (str "raw://" ++ p) = none := rfl

/-! Hit facts: the intended scheme does match, and the payload survives the
`(.+)`/`(.*)` side conditions. -/

lemma dropLit_env_hit (p : Str) :
    dropLit (str "env" ++ sep) (str "env://" ++ p) = some p :=
  dropLit_self (str "env" ++ sep) p

lemma dropLit_b64_hit (p : Str) :
    dropLit (str "base64" ++ sep) (str "base64://" ++ p) = some p :=
  dropLit_self (str "base64" ++ sep) p

lemma dropLit_raw_hit (p : Str) :
    dropLit (str "raw" ++ sep) (str "raw://" ++ p) = some p :=
  dropLit_self (str "raw" ++ sep) p

lemma schemeSplit_up_env (p : Str) (h1 : p ≠ []) (h2 : '\n' ∉ p) :
    schemeSplit upSchemes false (str "env://" ++ p) = some (str "env", p) := by
  have hall := all_ne_lf p h2
  cases p with
  | nil => exact absurd rfl h1
  | cons c cs =>
    simp [upSchemes, schemeSplit, dropLit_aws_env, dropLit_b64_env,
      dropLit_env_hit, hall]

lemma schemeSplit_up_b64 (p : Str) (h1 : p ≠ []) (h2 : '\n' ∉ p) :
    schemeSplit upSchemes false (str "base64://" ++ p) =
      some (str "base64", p) := by
  have hall := all_ne_lf p h2
  cases p with
  | nil => exact absurd rfl h1
  | cons c cs =>
    simp [upSchemes, schemeSplit, dropLit_aws_b64, dropLit_b64_hit, hall]

lemma schemeSplit_gen_b64 (p : Str) (h2 : '\n' ∉ p) :
    schemeSplit genSchemes true (str "base64://" ++ p) =
      some (str "base64", p) := by
  have hall := all_ne_lf p h2
  simp [genSchemes, schemeSplit, dropLit_aws_b64, dropLit_awsbin_b64,
    dropLit_b64_hit, hall]

lemma schemeSplit_up_raw (p : Str) (h1 : p ≠ []) (h2 : '\n' ∉ p) :
    schemeSplit upSchemes false (str "raw://" ++ p) = some (str "raw", p) := by
  have hall := all_ne_lf p h2
  cases p with
  | nil => exact absurd rfl h1
  | cons c cs =>
    simp [upSchemes, schemeSplit, dropLit_aws_raw, dropLit_b64_raw,
      dropLit_env_raw, dropLit_envb64_raw, dropLit_file_raw,
      dropLit_fileb64_raw, dropLit_raw_hit, hall]

lemma app_ne_nil (c : Char) (l p : Str) : (c :: l) ++ p ≠ [] := by simp

/-! Inequalities between the scheme literals, used to reduce the dispatch
chains once the matched scheme is known. -/

@[simp] lemma raw_ne_aws : str "raw" ≠ str "awssecret" := by decide
@[simp] lemma raw_ne_awsbin : str "raw" ≠ str "awssecret+binary" := by decide
@[simp] lemma raw_ne_b64 : str "raw" ≠ str "base64" := by decide
@[simp] lemma raw_ne_env : str "raw" ≠ str "env" := by decide
@[simp] lemma raw_ne_envb64 : str "raw" ≠ str "env+base64" := by decide
@[simp] lemma raw_ne_file : str "raw" ≠ str "file" := by decide
@[simp] lemma raw_ne_fileb64 : str "raw" ≠ str "file+base64" := by decide
@[simp] lemma env_ne_aws : str "env" ≠ str "awssecret" := by decide
@[simp] lemma env_ne_b64 : str "env" ≠ str "base64" := by decide
@[simp] lemma b64_ne_aws : str "base64" ≠ str "awssecret" := by decide
@[simp] lemma b64_ne_awsbin : str "base64" ≠ str "awssecret+binary" := by
  decide

/-- C2: resolving `raw://admin:secret` yields username `admin` and password
`secret`; the masked string rendering of that secret is exactly
`a***********:************`; and re-parsing that masked string as a new
`raw://` value yields the degenerate pair
(`a***********`, `************`), not (`admin`, `secret`) — the masked
serialization is one-way.  The result holds for every effects record, since
the `raw` branch consults no external collaborator. -/
theorem rawRoundTripMasked (eff : SecretEffects) :
    parseUsernamePasswordSecret eff (str "raw://admin:secret") =
      .ok ⟨str "secret", str "admin"⟩ ∧
    UsernamePasswordSecret.string ⟨str "secret", str "admin"⟩ =
      str "a***********:************" ∧
    parseUsernamePasswordSecret eff (str "raw://a***********:************") =
      .ok ⟨str "************", str "a***********"⟩ ∧
    parseUsernamePasswordSecret eff (str "raw://a***********:************") ≠
      .ok ⟨str "secret", str "admin"⟩ := by
  refine ⟨rfl, rfl, rfl, ?_⟩
  intro h
  rw [show parseUsernamePasswordSecret eff
        (str "raw://a***********:************") =
      .ok ⟨str "************", str "a***********"⟩ from rfl] at h
  exact absurd h (by decide)

/-- C3: every entry point of both secret types — the parse functions, the
text unmarshalers, and the JSON unmarshalers fed the JSON string `""` —
resolves the empty input string to the zero-valued secret with no error. -/
theorem emptyInputYieldsZeroSecret (eff : SecretEffects) :
    parseUsernamePasswordSecret eff [] = .ok ⟨[], []⟩ ∧
    parseGenericSecret eff [] = .ok ⟨[]⟩ ∧
    UsernamePasswordSecret.unmarshalText eff [] = .ok ⟨[], []⟩ ∧
    GenericSecret.unmarshalText eff [] = .ok ⟨[]⟩ ∧
    UsernamePasswordSecret.unmarshalJSON eff (.jstr []) = .ok ⟨[], []⟩ ∧
    GenericSecret.unmarshalJSON eff (.jstr []) = .ok ⟨[]⟩ :=
  ⟨rfl, rfl, rfl, rfl, rfl, rfl⟩

/-- C8: for every `UsernamePasswordSecret` whose username is non-empty, the
`String` and `MarshalJSON` renderings show only the first character of the
username followed by the fixed eleven-asterisk mask, and the fixed
twelve-asterisk mask in place of the password whatever its content; for
every `GenericSecret`, both renderings are the fixed sixteen-asterisk mask
string regardless of the data. -/
theorem maskedRenderingContract (p : Str) (c : Char) (cs : Str)
    (g : GenericSecret) :
    UsernamePasswordSecret.string ⟨p, c :: cs⟩ =
      c :: str "***********:************" ∧
    UsernamePasswordSecret.marshalJSON ⟨p, c :: cs⟩ =
      .jobj [(str "password", .jstr (str "************")),
             (str "username", .jstr (c :: str "***********"))] ∧
    g.string = str "****************" ∧
    g.marshalJSON = .jstr (str "****************") :=
  ⟨rfl, rfl, rfl, rfl⟩

/-- C10: the credential resolver rejects every supported scheme with an empty
payload with the `UnsupportedSecretProtocolError` code (its pattern requires
at least one payload character), whereas the generic resolver's pattern
accepts an empty payload for each of its schemes, so `raw://` yields a
`GenericSecret` with empty data and no error. -/
theorem emptyPayloadSchemeAsymmetry (eff : SecretEffects) :
    parseUsernamePasswordSecret eff (str "awssecret://") =
      .error (xnew .UnsupportedSecretProtocolError) ∧
    parseUsernamePasswordSecret eff (str "base64://") =
      .error (xnew .UnsupportedSecretProtocolError) ∧
    parseUsernamePasswordSecret eff (str "env://") =
      .error (xnew .UnsupportedSecretProtocolError) ∧
    parseUsernamePasswordSecret eff (str "env+base64://") =
      .error (xnew .UnsupportedSecretProtocolError) ∧
    parseUsernamePasswordSecret eff (str "file://") =
      .error (xnew .UnsupportedSecretProtocolError) ∧
    parseUsernamePasswordSecret eff (str "file+base64://") =
      .error (xnew .UnsupportedSecretProtocolError) ∧
    parseUsernamePasswordSecret eff (str "raw://") =
      .error (xnew .UnsupportedSecretProtocolError) ∧
    schemeSplit genSchemes true (str "awssecret://") =
      some (str "awssecret", []) ∧
    schemeSplit genSchemes true (str "awssecret+binary://") =
      some (str "awssecret+binary", []) ∧
    schemeSplit genSchemes true (str "base64://") = some (str "base64", []) ∧
    schemeSplit genSchemes true (str "env://") = some (str "env", []) ∧
    schemeSplit genSchemes true (str "env+base64://") =
      some (str "env+base64", []) ∧
    schemeSplit genSchemes true (str "file://") = some (str "file", []) ∧
    schemeSplit genSchemes true (str "file+base64://") =
      some (str "file+base64", []) ∧
    schemeSplit genSchemes true (str "raw://") = some (str "raw", []) ∧
    parseGenericSecret eff (str "raw://") = .ok ⟨[]⟩ :=
  ⟨rfl, rfl, rfl, rfl, rfl, rfl, rfl, rfl, rfl, rfl, rfl, rfl, rfl, rfl, rfl,
   rfl⟩

/-- The JSON credentials file of the C1 scenario:
`{"username":"u","password":"p"}`. -/
def c1Content : Str := str "\x7b\"username\":\"u\",\"password\":\"p\"\x7d"

/-- Effects for the C1 scenario: the file `creds.json` holds `c1Content`; the
JSON and YAML codecs are arbitrary. -/
def c1Effects (jsonDec yamlDec : Str → Option CredentialSecret) :
    CredEffects :=
  ⟨fun p => if p = str "creds.json" then some c1Content else none,
   goB64Decode, jsonDec, yamlDec⟩

/-- C1: the claim (and the function's own doc comment) says a `file://` path
ending in `.json` is parsed as JSON, yielding username `u` and password `p`
for the file `{"username":"u","password":"p"}`.  The code instead computes
`path.Ext`, which keeps its leading dot (`.json`), and compares it against
the bare words `json`/`yaml`/`yml`, so the structured branches are
unreachable whatever JSON or YAML codec is plugged in: the trimmed contents
are split on the first colon, yielding the degenerate pair
(`{"username"`, `"u","password":"p"}`) with no error. -/
theorem credFileExtensionDispatchBug
    (jsonDec yamlDec : Str → Option CredentialSecret) :
    parseCredentialSecret (c1Effects jsonDec yamlDec)
        (str "file://creds.json") =
      .ok ⟨str "\"u\",\"password\":\"p\"\x7d", str "\x7b\"username\""⟩ ∧
    toLowerStr (pathExt (str "creds.json")) = str ".json" ∧
    parseCredentialSecret (c1Effects jsonDec yamlDec)
        (str "file://creds.json") ≠
      .ok ⟨str "p", str "u"⟩ := by
  refine ⟨rfl, rfl, ?_⟩
  intro h
  rw [show parseCredentialSecret (c1Effects jsonDec yamlDec)
        (str "file://creds.json") =
      .ok ⟨str "\"u\",\"password\":\"p\"\x7d", str "\x7b\"username\""⟩
    from rfl] at h
  exact absurd h (by decide)

/-- C5 counterexample: the empty payload contains no colon, yet resolving
`raw://` fails with `UnsupportedSecretProtocolError`, not with the
`ParseSecretError` code the claim names for every colon-free payload. -/
theorem rawEmptyPayloadUnsupported :
    parseUsernamePasswordSecret eff₀ (str "raw://") =
      .error (xnew .UnsupportedSecretProtocolError) ∧
    xnew .UnsupportedSecretProtocolError ≠ xnew .ParseSecretError := by
  exact ⟨rfl, by decide⟩

/-- C5 as amended: for every non-empty, newline-free `raw://` credential
payload with no colon, resolution fails with the `ParseSecretError` code;
when such a payload does contain a colon it is split on the first colon into
exactly a username part and a password part. -/
theorem rawNoColonParseError (eff : SecretEffects) (p : Str) (h1 : p ≠ [])
    (h2 : '\n' ∉ p) :
    (':' ∉ p →
      parseUsernamePasswordSecret eff (str "raw://" ++ p) =
        .error (xnew .ParseSecretError)) ∧
    (∀ u v, p = u ++ ':' :: v → ':' ∉ u →
      parseUsernamePasswordSecret eff (str "raw://" ++ p) = .ok ⟨v, u⟩) := by
  have hit := schemeSplit_up_raw p h1 h2
  have hne : str "raw://" ++ p ≠ [] := app_ne_nil _ _ _
  constructor
  · intro hc
    unfold parseUsernamePasswordSecret
    rw [if_neg hne]
    simp [hit, splitFirstColon_none_of p hc]
  · rintro u v rfl hu
    unfold parseUsernamePasswordSecret
    rw [if_neg hne]
    simp [hit, splitFirstColon_app u v hu]

/-- C5 witness: `raw://ab` fails with the parse error, and `raw://a:b`
splits into username `a` and password `b`. -/
theorem rawNoColonParseErrorWitness :
    parseUsernamePasswordSecret eff₀ (str "raw://ab") =
      .error (xnew .ParseSecretError) ∧
    parseUsernamePasswordSecret eff₀ (str "raw://a:b") =
      .ok ⟨str "b", str "a"⟩ :=
  ⟨(rawNoColonParseError eff₀ (str "ab") (by decide) (by decide)).1
      (by decide),
   (rawNoColonParseError eff₀ (str "a:b") (by decide) (by decide)).2
      (str "a") (str "b") (by decide) (by decide)⟩

/-- C4: scheme dispatch is a case-sensitive literal match against the fixed
allow-list; every non-empty input matching no allow-listed scheme — in
particular any input whose scheme is not in the list — fails with the
`UnsupportedSecretProtocolError` code in both resolvers. -/
theorem unknownSchemeUnsupported (eff : SecretEffects) (secret : Str)
    (hne : secret ≠ [])
    (h : ∀ s ∈ genSchemes, dropLit (s ++ sep) secret = none) :
    parseUsernamePasswordSecret eff secret =
      .error (xnew .UnsupportedSecretProtocolError) ∧
    parseGenericSecret eff secret =
      .error (xnew .UnsupportedSecretProtocolError) := by
  have hup : schemeSplit upSchemes false secret = none :=
    schemeSplit_none _ _ _ (fun s hs => by
      apply h s
      have hcases : s = str "awssecret" ∨ s = str "base64" ∨ s = str "env" ∨
          s = str "env+base64" ∨ s = str "file" ∨ s = str "file+base64" ∨
          s = str "raw" := by simpa [upSchemes] using hs
      rcases hcases with rfl | rfl | rfl | rfl | rfl | rfl | rfl <;> decide)
  have hgen : schemeSplit genSchemes true secret = none :=
    schemeSplit_none _ _ _ h
  constructor
  · unfold parseUsernamePasswordSecret
    rw [if_neg hne]
    simp [hup]
  · unfold parseGenericSecret
    rw [if_neg hne]
    simp [hgen]

/-- C4 witness: `unknownscheme://x` fails with the unsupported-protocol code
in both resolvers, and so does the case-mismatched `RAW://admin:secret`. -/
theorem unknownSchemeUnsupportedWitness :
    (parseUsernamePasswordSecret eff₀ (str "unknownscheme://x") =
        .error (xnew .UnsupportedSecretProtocolError) ∧
      parseGenericSecret eff₀ (str "unknownscheme://x") =
        .error (xnew .UnsupportedSecretProtocolError)) ∧
    (parseUsernamePasswordSecret eff₀ (str "RAW://admin:secret") =
        .error (xnew .UnsupportedSecretProtocolError) ∧
      parseGenericSecret eff₀ (str "RAW://admin:secret") =
        .error (xnew .UnsupportedSecretProtocolError)) :=
  ⟨unknownSchemeUnsupported eff₀ (str "unknownscheme://x") (by decide)
      (by decide),
   unknownSchemeUnsupported eff₀ (str "RAW://admin:secret") (by decide)
      (by decide)⟩

/-- C6: resolving `env://USER_VAR:PASS_VAR` as a credential secret looks up
the two named environment variables, an unset variable contributing the
empty string rather than an error: the result is always the pair of looked-up
values (with `Option.getD []` modelling `os.Getenv` returning `""` for an
unset variable), with no error. -/
theorem envMissingVarsEmpty (eff : SecretEffects) (u p : Str) (hu : ':' ∉ u)
    (hnu : '\n' ∉ u) (hnp : '\n' ∉ p) :
    parseUsernamePasswordSecret eff (str "env://" ++ (u ++ ':' :: p)) =
      .ok ⟨(eff.getenv p).getD [], (eff.getenv u).getD []⟩ := by
  have hne' : (u ++ ':' :: p : Str) ≠ [] := by cases u <;> simp
  have hlf : '\n' ∉ (u ++ ':' :: p : Str) := by
    intro hmem
    rcases List.mem_append.mp hmem with hmem' | hmem'
    · exact hnu hmem'
    · rcases List.mem_cons.mp hmem' with hmem'' | hmem''
      · exact absurd hmem'' (by decide)
      · exact hnp hmem''
  have hit := schemeSplit_up_env _ hne' hlf
  have hne : str "env://" ++ (u ++ ':' :: p) ≠ [] := app_ne_nil _ _ _
  unfold parseUsernamePasswordSecret
  rw [if_neg hne]
  simp [hit, splitFirstColon_app u p hu]

/-- C6 witness: with no environment variables set,
`env://MISSING_VAR:OTHER_MISSING` yields the empty username and password
with no error. -/
theorem envMissingVarsEmptyWitness :
    parseUsernamePasswordSecret eff₀ (str "env://MISSING_VAR:OTHER_MISSING") =
      .ok ⟨[], []⟩ :=
  envMissingVarsEmpty eff₀ (str "MISSING_VAR") (str "OTHER_MISSING")
    (by decide) (by decide) (by decide)

/-- C7 as amended: for every non-empty, newline-free `base64://` payload on
which the base64 codec fails, both the credential and the generic resolver
fail with the `ParseSecretError` code.  The theorem quantifies over the
injected codec, so it covers exactly the payloads
`base64.StdEncoding.DecodeString` rejects.  The newline exclusion is forced
by the counterexample below (a payload with a newline never reaches the
base64 branch), and the non-emptiness hypothesis excludes nothing in the
claim's scope, since the empty string is valid base64. -/
theorem invalidBase64ParseError (eff : SecretEffects) (p : Str) (h1 : p ≠ [])
    (h2 : '\n' ∉ p) (hdec : eff.b64decode p = none) :
    parseUsernamePasswordSecret eff (str "base64://" ++ p) =
      .error (xnew .ParseSecretError) ∧
    parseGenericSecret eff (str "base64://" ++ p) =
      .error (xnew .ParseSecretError) := by
  have hitU := schemeSplit_up_b64 p h1 h2
  have hitG := schemeSplit_gen_b64 p h2
  have hne : str "base64://" ++ p ≠ [] := app_ne_nil _ _ _
  constructor
  · unfold parseUsernamePasswordSecret
    rw [if_neg hne]
    simp [hitU, hdec]
  · unfold parseGenericSecret
    rw [if_neg hne]
    simp [hitG, hdec]

/-- Every diagnostic attribute of a credential-resolver error carries one of
the identifier keys and the URI payload (secret name, variable spec, or
filename) as its value — never data fetched from the environment, the
filesystem, or the secret store. -/
lemma upErrorAttrs (eff : SecretEffects) (secret : Str) (e : XError)
    (h : parseUsernamePasswordSecret eff secret = .error e) :
    ∀ kv ∈ e.attrs, ∃ scheme payload,
      schemeSplit upSchemes false secret = some (scheme, payload) ∧
      kv.2 = payload ∧
      kv.1 ∈ [str "secret_name", str "credentials", str "filename"] := by
  intro kv hkv
  unfold parseUsernamePasswordSecret at h
  by_cases hemp : secret = []
  · rw [if_pos hemp] at h
    exact Except.noConfusion h
  · rw [if_neg hemp] at h
    cases hs : schemeSplit upSchemes false secret with
    | none =>
      simp only [hs] at h
      injection h with h'
      subst h'
      simp [xnew] at hkv
    | some sp =>
      obtain ⟨scheme, payload⟩ := sp
      simp only [hs] at h
      repeat' split at h
      all_goals try exact Except.noConfusion h
      all_goals (
        injection h with h'
        subst h'
        first
        | (simp only [xnew, XError.withAttr, List.nil_append,
             List.mem_singleton] at hkv
           subst hkv
           exact ⟨scheme, payload, rfl, rfl, by simp⟩)
        | simp [xnew] at hkv)

/-- Every diagnostic attribute of a generic-resolver error carries one of the
identifier keys and the URI payload as its value. -/
lemma genErrorAttrs (eff : SecretEffects) (secret : Str) (e : XError)
    (h : parseGenericSecret eff secret = .error e) :
    ∀ kv ∈ e.attrs, ∃ scheme payload,
      schemeSplit genSchemes true secret = some (scheme, payload) ∧
      kv.2 = payload ∧
      kv.1 ∈ [str "secret_name", str "secret_var", str "filename"] := by
  intro kv hkv
  unfold parseGenericSecret at h
  by_cases hemp : secret = []
  · rw [if_pos hemp] at h
    exact Except.noConfusion h
  · rw [if_neg hemp] at h
    cases hs : schemeSplit genSchemes true secret with
    | none =>
      simp only [hs] at h
      injection h with h'
      subst h'
      simp [xnew] at hkv
    | some sp =>
      obtain ⟨scheme, payload⟩ := sp
      simp only [hs] at h
      repeat' split at h
      all_goals try exact Except.noConfusion h
      all_goals (
        injection h with h'
        subst h'
        first
        | (simp only [xnew, XError.withAttr, List.nil_append,
             List.mem_singleton] at hkv
           subst hkv
           exact ⟨scheme, payload, rfl, rfl, by simp⟩)
        | simp [xnew] at hkv)

/-- C9 counterexample: resolving `raw://ab` fails with an error whose
attribute list is empty — the error is not annotated with the scheme or any
identifier, contradicting the claim that every resolver error is. -/
theorem rawErrorNoAttrs :
    parseUsernamePasswordSecret eff₀ (str "raw://ab") =
      .error ⟨.ParseSecretError, []⟩ := rfl

/-- C9 as amended: whenever a resolver error carries a diagnostic attribute,
that attribute's key is one of the identifier keys (`secret_name`,
`credentials`/`secret_var`, `filename`) and its value is exactly the URI
payload — the secret name, variable specification, or filename taken from
the input — never a value fetched from the environment, the filesystem, or
the secret store; the unsupported-protocol, base64, and raw-format errors
carry no attributes at all. -/
theorem errorAttrsIdentifierOnly :
    (∀ eff secret e, parseUsernamePasswordSecret eff secret = .error e →
      ∀ kv ∈ e.attrs, ∃ scheme payload,
        schemeSplit upSchemes false secret = some (scheme, payload) ∧
        kv.2 = payload ∧
        kv.1 ∈ [str "secret_name", str "credentials", str "filename"]) ∧
    (∀ eff secret e, parseGenericSecret eff secret = .error e →
      ∀ kv ∈ e.attrs, ∃ scheme payload,
        schemeSplit genSchemes true secret = some (scheme, payload) ∧
        kv.2 = payload ∧
        kv.1 ∈ [str "secret_name", str "secret_var", str "filename"]) :=
  ⟨upErrorAttrs, genErrorAttrs⟩

/-- C9 witness: the error for `env://AB` (a variable spec without a colon)
carries the attribute (`credentials`, `AB`), whose value is the URI payload
and whose key is an identifier key. -/
theorem errorAttrsIdentifierOnlyWitness :
    ∃ scheme payload,
      schemeSplit upSchemes false (str "env://AB") = some (scheme, payload) ∧
      (str "credentials", str "AB").2 = payload ∧
      (str "credentials", str "AB").1 ∈
        [str "secret_name", str "credentials", str "filename"] :=
  errorAttrsIdentifierOnly.1 eff₀ (str "env://AB")
    ⟨.ParseSecretError, [(str "credentials", str "AB")]⟩ (by decide)
    (str "credentials", str "AB") (by decide)

/-- C7 counterexample: the payload `ab\n` is not valid base64
(`DecodeString` ignores the newline, leaving `ab`, an illegal length), yet
resolving `base64://ab\n` fails with the `UnsupportedSecretProtocolError`
code in both resolvers — the regex `(.+)$` cannot match a payload containing
a newline, so the base64 branch is never reached and no `ParseSecretError`
is produced, refuting the claim as stated. -/
theorem base64NewlineUnsupported :
    goB64Decode (str "ab\n") = none ∧
    parseUsernamePasswordSecret eff₀ (str "base64://ab\n") =
      .error (xnew .UnsupportedSecretProtocolError) ∧
    parseGenericSecret eff₀ (str "base64://ab\n") =
      .error (xnew .UnsupportedSecretProtocolError) ∧
    xnew .UnsupportedSecretProtocolError ≠ xnew .ParseSecretError := by
  exact ⟨rfl, rfl, rfl, by decide⟩

/-- C7 witness: `ab` is not valid base64 (it is not a padded four-character
group), and `base64://ab` fails with the parse-error code in both
resolvers. -/
theorem invalidBase64ParseErrorWitness :
    parseUsernamePasswordSecret eff₀ (str "base64://ab") =
      .error (xnew .ParseSecretError) ∧
    parseGenericSecret eff₀ (str "base64://ab") =
      .error (xnew .ParseSecretError) :=
  invalidBase64ParseError eff₀ (str "ab") (by decide) (by decide) (by decide)
